import Mathlib

/-!
Shallow embedding of the wallet-session state machine in
`src/contexts/Web3Context.tsx` (the `Web3Provider` component), together with
proofs of the specified properties.

The component's React state (`provider`, `signer`, `account`, `chainId`,
`isConnected`) is modelled as a `Session` record.  Each operation
(`connectWallet`, `disconnectWallet`, `switchToSepolia`,
`handleAccountsChanged`, `handleChainChanged`, `autoConnect`) is a pure
function from the pre-state and the adapter's responses to the post-state
plus the ordered trace of observable events: adapter requests issued and
toast notifications emitted.
-/

namespace Web3

/-- Sepolia chain id constant (`SEPOLIA_CHAIN_ID = 11155111` in the source). -/
def SEPOLIA_CHAIN_ID : Nat := 11155111

/-- Sepolia RPC endpoint constant (`SEPOLIA_RPC_URL` in the source). -/
def SEPOLIA_RPC_URL : String :=
  "https://eth-sepolia.g.alchemy.com/v2/d8cu_4ZQnwo5G_j-l7xXLA0IgBwzrhp9"

/-- Opaque provider capability handle (`new BrowserProvider(window.ethereum)`). -/
inductive ProviderHandle where
  | mk
deriving DecidableEq, Repr

/-- Opaque signer capability handle (result of `provider.getSigner()`). -/
inductive SignerHandle where
  | mk
deriving DecidableEq, Repr

/-- The React state held by `Web3Provider`: the five `useState` cells
`provider`, `signer`, `account`, `chainId`, `isConnected`.  `none` models the
JavaScript `null`. -/
structure Session where
  provider : Option ProviderHandle
  signer : Option SignerHandle
  account : Option String
  chainId : Option Nat
  isConnected : Bool
deriving DecidableEq, Repr

/-- The initial state: every `useState` starts at `null` / `false`. -/
def initialSession : Session :=
  { provider := none, signer := none, account := none, chainId := none,
    isConnected := false }

/-- A toast notification: `toast.success`, `toast.error` or `toast.loading`. -/
inductive Notif where
  | success (msg : String)
  | error (msg : String)
  | loading (msg : String)
deriving DecidableEq, Repr

/-- Native-currency part of the chain descriptor passed to
`wallet_addEthereumChain`. -/
structure NativeCurrency where
  name : String
  symbol : String
  decimals : Nat
deriving DecidableEq, Repr

/-- Chain descriptor passed to `wallet_addEthereumChain`. -/
structure ChainDescriptor where
  chainId : String
  chainName : String
  nativeCurrency : NativeCurrency
  rpcUrls : List String
  blockExplorerUrls : List String
deriving DecidableEq, Repr

/-- The requests the component can issue to the injected wallet adapter. -/
inductive AdapterReq where
  | requestAccounts
  | getSigner
  | getNetwork
  | switchChain (chainIdHex : String)
  | addChain (descriptor : ChainDescriptor)
  | ethAccounts
deriving DecidableEq, Repr

/-- An observable event of one operation run: an adapter request issued or a
notification emitted, in program order. -/
inductive Event where
  | req (r : AdapterReq)
  | notif (n : Notif)
deriving DecidableEq, Repr

/-- The notifications contained in an event trace, in order. -/
def notifs (ev : List Event) : List Notif :=
  ev.filterMap fun e =>
    match e with
    | Event.notif n => some n
    | Event.req _ => none

/-- A wallet error value carrying the numeric error `code` field inspected by
`switchToSepolia` (`switchError.code === 4902`). -/
structure SwitchErr where
  code : Int
deriving DecidableEq, Repr

/-- One adapter behaviour: the response the injected wallet gives to each
request the component can make during a single operation run.  `Except.error`
models the adapter call throwing. -/
structure Adapter where
  ethereumPresent : Bool
  requestAccounts : Except Unit (List String)
  getSigner : Except Unit SignerHandle
  getNetwork : Except Unit Nat
  switchChain : Except SwitchErr Unit
  addChain : Except Unit Unit
  ethAccounts : Except Unit (List String)

/-- The hex chain-id string the source builds as
`0x${SEPOLIA_CHAIN_ID.toString(16)}`. -/
def sepoliaChainIdHex : String :=
  "0x" ++ String.mk (Nat.toDigits 16 SEPOLIA_CHAIN_ID)

/-- The full Sepolia descriptor passed to `wallet_addEthereumChain` in the
source. -/
def sepoliaDescriptor : ChainDescriptor :=
  { chainId := sepoliaChainIdHex
  , chainName := "Sepolia Test Network"
  , nativeCurrency := { name := "Sepolia Ether", symbol := "ETH", decimals := 18 }
  , rpcUrls := [SEPOLIA_RPC_URL]
  , blockExplorerUrls := ["https://sepolia.etherscan.io/"] }

/-- Mirrors `disconnectWallet`: unconditionally clears all five state cells and
emits `toast.success('Wallet disconnected')`. -/
def disconnectWallet (_s : Session) : Session × List Event :=
  ({ provider := none, signer := none, account := none, chainId := none,
     isConnected := false },
   [Event.notif (Notif.success "Wallet disconnected")])

/-- Mirrors `switchToSepolia`: requests `wallet_switchEthereumChain`; on an
error with `code === 4902` falls back to `wallet_addEthereumChain` with the
full Sepolia descriptor, toasting only if that also fails; on any other error
toasts the generic switch failure.  No state cell is touched. -/
def switchToSepolia (a : Adapter) (s : Session) : Session × List Event :=
  match a.switchChain with
  | Except.ok _ => (s, [Event.req (AdapterReq.switchChain sepoliaChainIdHex)])
  | Except.error e =>
    if e.code = 4902 then
      match a.addChain with
      | Except.ok _ =>
        (s, [Event.req (AdapterReq.switchChain sepoliaChainIdHex),
             Event.req (AdapterReq.addChain sepoliaDescriptor)])
      | Except.error _ =>
        (s, [Event.req (AdapterReq.switchChain sepoliaChainIdHex),
             Event.req (AdapterReq.addChain sepoliaDescriptor),
             Event.notif (Notif.error "Failed to add Sepolia network")])
    else
      (s, [Event.req (AdapterReq.switchChain sepoliaChainIdHex),
           Event.notif (Notif.error "Failed to switch to Sepolia network")])

/-- Mirrors `connectWallet`.  If `window.ethereum` is absent, toasts the
MetaMask error.  Otherwise requests accounts; an empty list changes nothing;
on a non-empty list it obtains the signer and network, and either completes
the connection (network = Sepolia: populate all five cells, toast success) or
toasts the switch warning, calls `switchToSepolia` and returns with the state
untouched.  Any adapter call throwing is caught and toasts the generic connect
failure, leaving the state untouched. -/
def connectWallet (a : Adapter) (s : Session) : Session × List Event :=
  if a.ethereumPresent then
    match a.requestAccounts with
    | Except.error _ =>
      (s, [Event.req AdapterReq.requestAccounts,
           Event.notif (Notif.error "Failed to connect wallet. Please try again.")])
    | Except.ok accounts =>
      match accounts with
      | [] => (s, [Event.req AdapterReq.requestAccounts])
      | acc0 :: _ =>
        match a.getSigner with
        | Except.error _ =>
          (s, [Event.req AdapterReq.requestAccounts, Event.req AdapterReq.getSigner,
               Event.notif (Notif.error "Failed to connect wallet. Please try again.")])
        | Except.ok sig =>
          match a.getNetwork with
          | Except.error _ =>
            (s, [Event.req AdapterReq.requestAccounts, Event.req AdapterReq.getSigner,
                 Event.req AdapterReq.getNetwork,
                 Event.notif (Notif.error "Failed to connect wallet. Please try again.")])
          | Except.ok netId =>
            if netId ≠ SEPOLIA_CHAIN_ID then
              let sw := switchToSepolia a s
              (sw.1,
               [Event.req AdapterReq.requestAccounts, Event.req AdapterReq.getSigner,
                Event.req AdapterReq.getNetwork,
                Event.notif (Notif.error "Please switch to Sepolia Testnet.")] ++ sw.2)
            else
              ({ provider := some ProviderHandle.mk, signer := some sig,
                 account := some acc0, chainId := some netId, isConnected := true },
               [Event.req AdapterReq.requestAccounts, Event.req AdapterReq.getSigner,
                Event.req AdapterReq.getNetwork,
                Event.notif (Notif.success "Wallet connected successfully!")])
  else
    (s, [Event.notif (Notif.error "MetaMask is not installed. Please install MetaMask to continue.")])

/-- Value of a hexadecimal digit character, or `none`. -/
def hexDigitVal (c : Char) : Option Nat :=
  if '0' ≤ c ∧ c ≤ '9' then some (c.toNat - '0'.toNat)
  else if 'a' ≤ c ∧ c ≤ 'f' then some (c.toNat - 'a'.toNat + 10)
  else if 'A' ≤ c ∧ c ≤ 'F' then some (c.toNat - 'A'.toNat + 10)
  else none

/-- Accumulate the longest prefix of hexadecimal digits. -/
def parseHexLoop : List Char → Nat → Nat
  | [], acc => acc
  | c :: rest, acc =>
    match hexDigitVal c with
    | some d => parseHexLoop rest (acc * 16 + d)
    | none => acc

/-- Models JavaScript `parseInt(s, 16)` on the chain-id strings wallets send
(optional `0x`/`0X` prefix, then hex digits): parses the longest hex-digit
prefix; `none` models `NaN` (no digit at all). -/
def parseIntHex (s : String) : Option Nat :=
  let cs := s.data
  let cs := if cs.take 2 = ['0', 'x'] ∨ cs.take 2 = ['0', 'X'] then cs.drop 2 else cs
  match cs with
  | [] => none
  | c :: _ =>
    match hexDigitVal c with
    | none => none
    | some _ => some (parseHexLoop cs 0)

/-- Mirrors `handleAccountsChanged`: an empty list means wallet-side logout, so
`disconnectWallet()`; otherwise only `account` is set to the first entry. -/
def handleAccountsChanged (s : Session) (accounts : List String) : Session × List Event :=
  match accounts with
  | [] => disconnectWallet s
  | acc0 :: _ => ({ s with account := some acc0 }, [])

/-- Mirrors `handleChainChanged`: parses the hex id with `parseInt(·, 16)` and
stores it; if it differs from `SEPOLIA_CHAIN_ID`, toasts the switch warning and
calls `disconnectWallet()`.  `parseInt` returning `NaN` (here `none`) also
differs from `SEPOLIA_CHAIN_ID`, and the transient `NaN` stored in `chainId` is
immediately cleared by the disconnect, so it is modelled as `none`. -/
def handleChainChanged (s : Session) (chainIdHex : String) : Session × List Event :=
  match parseIntHex chainIdHex with
  | some n =>
    let s1 : Session := { s with chainId := some n }
    if n ≠ SEPOLIA_CHAIN_ID then
      let d := disconnectWallet s1
      (d.1, Event.notif (Notif.error "Please switch to Sepolia Testnet.") :: d.2)
    else
      (s1, [])
  | none =>
    let d := disconnectWallet { s with chainId := none }
    (d.1, Event.notif (Notif.error "Please switch to Sepolia Testnet.") :: d.2)

/-- Mirrors the `autoConnect` effect: if the capability exists, toasts the
loading message, queries `eth_accounts`, and when any account is authorized
runs `connectWallet`.  A throw from the `eth_accounts` query is caught and only
logged (`connectWallet` catches its own failures and never throws). -/
def autoConnect (a : Adapter) (s : Session) : Session × List Event :=
  if a.ethereumPresent then
    match a.ethAccounts with
    | Except.error _ =>
      (s, [Event.notif (Notif.loading "Attempting auto-connect..."),
           Event.req AdapterReq.ethAccounts])
    | Except.ok accounts =>
      if accounts.isEmpty then
        (s, [Event.notif (Notif.loading "Attempting auto-connect..."),
             Event.req AdapterReq.ethAccounts])
      else
        let c := connectWallet a s
        (c.1,
         Event.notif (Notif.loading "Attempting auto-connect...") ::
           Event.req AdapterReq.ethAccounts :: c.2)
  else (s, [])

/-- The session status enumeration of the specification.  The source state
carries only the boolean `isConnected`; this derives the specification's
status from the source state (there is no third value the source could ever
represent). -/
inductive Status where
  | Disconnected
  | Connecting
  | Connected
deriving DecidableEq, Repr

/-- Specification status of a source state: `Connected` iff `isConnected`. -/
def statusOf (s : Session) : Status :=
  if s.isConnected then Status.Connected else Status.Disconnected

/-- One externally triggered operation on the session, together with the
adapter behaviour it runs against. -/
inductive Op where
  | connect (a : Adapter)
  | disconnect
  | accountsChanged (accounts : List String)
  | chainChanged (chainIdHex : String)

/-- Apply one operation to a state. -/
def applyOp (s : Session) : Op → Session × List Event
  | Op.connect a => connectWallet a s
  | Op.disconnect => disconnectWallet s
  | Op.accountsChanged accounts => handleAccountsChanged s accounts
  | Op.chainChanged raw => handleChainChanged s raw

/-- Run a list of operations from a state. -/
def runOps (s : Session) : List Op → Session
  | [] => s
  | op :: rest => runOps (applyOp s op).1 rest

/-- A state is reachable when some operation sequence produces it from the
initial state. -/
def Reachable (s : Session) : Prop :=
  ∃ ops : List Op, runOps initialSession ops = s

/-! ### Helper lemmas -/

/-- `switchToSepolia` never writes any state cell. -/
theorem switchToSepolia_fst (a : Adapter) (s : Session) : (switchToSepolia a s).1 = s := by
  unfold switchToSepolia
  split
  · rfl
  · split
    · split <;> rfl
    · rfl

/-- `switchToSepolia` always issues the switch request. -/
theorem switchToSepolia_req (a : Adapter) (s : Session) :
    Event.req (AdapterReq.switchChain sepoliaChainIdHex) ∈ (switchToSepolia a s).2 := by
  unfold switchToSepolia
  split
  · simp
  · split
    · split <;> simp
    · simp

/-- The specification status is `Connected` exactly when `isConnected` holds. -/
theorem statusOf_eq_connected (s : Session) :
    statusOf s = Status.Connected ↔ s.isConnected = true := by
  unfold statusOf
  rcases hb : s.isConnected <;> simp

/-- The specification status is never `Connecting`: the source state cannot
represent an in-flight connect attempt. -/
theorem statusOf_ne_connecting (s : Session) : statusOf s ≠ Status.Connecting := by
  unfold statusOf
  rcases hb : s.isConnected <;> simp

/-! ### Claim theorems -/

/-- Claim C10: for every `switchToSepolia` call and every adapter outcome
(switch succeeds, switch fails with code 4902 and add succeeds, add fails, or
switch fails with any other code), no session field is modified: `provider`,
`signer`, `account`, `chainId` and `isConnected` all hold the same values
after the call as before it — in particular `chainId` is not updated even when
the switch succeeds. -/
theorem c10_switch_preserves_session (a : Adapter) (s : Session) :
    (switchToSepolia a s).1.provider = s.provider ∧
    (switchToSepolia a s).1.signer = s.signer ∧
    (switchToSepolia a s).1.account = s.account ∧
    (switchToSepolia a s).1.chainId = s.chainId ∧
    (switchToSepolia a s).1.isConnected = s.isConnected ∧
    (switchToSepolia a s).1 = s := by
  have h := switchToSepolia_fst a s
  rw [h]
  exact ⟨rfl, rfl, rfl, rfl, rfl, rfl⟩

/-- Claim C8: for every `handleAccountsChanged` event with a non-empty account
list, the handler sets `account` to the first entry and leaves every other
session field (`provider`, `signer`, `chainId`, `isConnected`) unchanged, and
emits nothing. -/
theorem c8_accounts_changed_nonempty (s : Session) (acc0 : String) (rest : List String) :
    (handleAccountsChanged s (acc0 :: rest)).1.account = some acc0 ∧
    (handleAccountsChanged s (acc0 :: rest)).1.provider = s.provider ∧
    (handleAccountsChanged s (acc0 :: rest)).1.signer = s.signer ∧
    (handleAccountsChanged s (acc0 :: rest)).1.chainId = s.chainId ∧
    (handleAccountsChanged s (acc0 :: rest)).1.isConnected = s.isConnected ∧
    (handleAccountsChanged s (acc0 :: rest)).2 = [] :=
  ⟨rfl, rfl, rfl, rfl, rfl, rfl⟩

/-- Claim C9: a `connectWallet` call made with no adapter capability present
leaves the session entirely unchanged (in particular a Disconnected session
stays Disconnected) and emits exactly one notification, the MetaMask error. -/
theorem c9_connect_no_provider (a : Adapter) (s : Session)
    (hp : a.ethereumPresent = false) :
    (connectWallet a s).1 = s ∧
    notifs (connectWallet a s).2 =
      [Notif.error "MetaMask is not installed. Please install MetaMask to continue."] := by
  unfold connectWallet
  rw [hp]
  exact ⟨rfl, rfl⟩

/-- Adapter with no injected wallet capability, for the C9 witness. -/
def absentAdapter : Adapter :=
  { ethereumPresent := false
  , requestAccounts := Except.ok []
  , getSigner := Except.ok SignerHandle.mk
  , getNetwork := Except.ok 0
  , switchChain := Except.ok ()
  , addChain := Except.ok ()
  , ethAccounts := Except.ok [] }

/-- Witness for C9 at a concrete capability-free adapter. -/
theorem c9_connect_no_provider_witness :
    absentAdapter.ethereumPresent = false ∧
    ((connectWallet absentAdapter initialSession).1 = initialSession ∧
      notifs (connectWallet absentAdapter initialSession).2 =
        [Notif.error "MetaMask is not installed. Please install MetaMask to continue."]) :=
  ⟨rfl, c9_connect_no_provider absentAdapter initialSession rfl⟩

/-- Claim C2: a `connectWallet` call where the capability exists, the adapter
grants a non-empty account list, and the reported network id is
`SEPOLIA_CHAIN_ID` ends Connected with `account` the first granted account,
`chainId = SEPOLIA_CHAIN_ID`, both handles populated, and exactly one success
notification (and no other notification) emitted. -/
theorem c2_connect_success (a : Adapter) (s : Session) (acc : String)
    (rest : List String) (sig : SignerHandle)
    (hp : a.ethereumPresent = true)
    (hacc : a.requestAccounts = Except.ok (acc :: rest))
    (hsig : a.getSigner = Except.ok sig)
    (hnet : a.getNetwork = Except.ok SEPOLIA_CHAIN_ID) :
    (connectWallet a s).1 =
      { provider := some ProviderHandle.mk, signer := some sig,
        account := some acc, chainId := some SEPOLIA_CHAIN_ID,
        isConnected := true } ∧
    statusOf (connectWallet a s).1 = Status.Connected ∧
    notifs (connectWallet a s).2 = [Notif.success "Wallet connected successfully!"] := by
  unfold connectWallet
  rw [hp, hacc, hsig, hnet]
  simp [notifs, statusOf]

/-- Adapter that grants one account on the required network, for witnesses. -/
def okAdapter : Adapter :=
  { ethereumPresent := true
  , requestAccounts := Except.ok ["0xAA", "0xBB"]
  , getSigner := Except.ok SignerHandle.mk
  , getNetwork := Except.ok SEPOLIA_CHAIN_ID
  , switchChain := Except.ok ()
  , addChain := Except.ok ()
  , ethAccounts := Except.ok ["0xAA"] }

/-- Witness for C2 at a concrete successful adapter. -/
theorem c2_connect_success_witness :
    okAdapter.ethereumPresent = true ∧
    okAdapter.requestAccounts = Except.ok ["0xAA", "0xBB"] ∧
    okAdapter.getSigner = Except.ok SignerHandle.mk ∧
    okAdapter.getNetwork = Except.ok SEPOLIA_CHAIN_ID ∧
    ((connectWallet okAdapter initialSession).1 =
      { provider := some ProviderHandle.mk, signer := some SignerHandle.mk,
        account := some "0xAA", chainId := some SEPOLIA_CHAIN_ID,
        isConnected := true } ∧
     statusOf (connectWallet okAdapter initialSession).1 = Status.Connected ∧
     notifs (connectWallet okAdapter initialSession).2 =
       [Notif.success "Wallet connected successfully!"]) :=
  ⟨rfl, rfl, rfl, rfl,
   c2_connect_success okAdapter initialSession "0xAA" ["0xBB"] SignerHandle.mk
     rfl rfl rfl rfl⟩

/-- Claim C3: a `connectWallet` call where the adapter grants a non-empty
account list but reports a network id different from `SEPOLIA_CHAIN_ID` emits
the switch warning, issues a network-switch request, and leaves the session
entirely unchanged — a Disconnected session remains Disconnected and no field
is populated. -/
theorem c3_connect_wrong_network (a : Adapter) (s : Session) (acc : String)
    (rest : List String) (sig : SignerHandle) (n : Nat)
    (hp : a.ethereumPresent = true)
    (hacc : a.requestAccounts = Except.ok (acc :: rest))
    (hsig : a.getSigner = Except.ok sig)
    (hnet : a.getNetwork = Except.ok n)
    (hne : n ≠ SEPOLIA_CHAIN_ID)
    (hd : s.isConnected = false) :
    (connectWallet a s).1 = s ∧
    statusOf (connectWallet a s).1 = Status.Disconnected ∧
    Notif.error "Please switch to Sepolia Testnet." ∈ notifs (connectWallet a s).2 ∧
    Event.req (AdapterReq.switchChain sepoliaChainIdHex) ∈ (connectWallet a s).2 := by
  unfold connectWallet
  rw [hp, hacc, hsig, hnet]
  simp only [if_pos hne, if_pos]
  refine ⟨switchToSepolia_fst a s, ?_, ?_, ?_⟩
  · rw [switchToSepolia_fst a s]
    unfold statusOf
    rw [hd]
    rfl
  · simp [notifs]
  · simp [switchToSepolia_req a s]

/-- Adapter that grants one account but reports mainnet (chain id 1), for
witnesses and the C7 counterexample. -/
def mismatchAdapter : Adapter :=
  { ethereumPresent := true
  , requestAccounts := Except.ok ["0xAA"]
  , getSigner := Except.ok SignerHandle.mk
  , getNetwork := Except.ok 1
  , switchChain := Except.ok ()
  , addChain := Except.ok ()
  , ethAccounts := Except.ok ["0xAA"] }

/-- Witness for C3 at a concrete wrong-network adapter. -/
theorem c3_connect_wrong_network_witness :
    mismatchAdapter.ethereumPresent = true ∧
    mismatchAdapter.requestAccounts = Except.ok ["0xAA"] ∧
    mismatchAdapter.getSigner = Except.ok SignerHandle.mk ∧
    mismatchAdapter.getNetwork = Except.ok 1 ∧
    (1 : Nat) ≠ SEPOLIA_CHAIN_ID ∧
    initialSession.isConnected = false ∧
    ((connectWallet mismatchAdapter initialSession).1 = initialSession ∧
     statusOf (connectWallet mismatchAdapter initialSession).1 = Status.Disconnected ∧
     Notif.error "Please switch to Sepolia Testnet." ∈
       notifs (connectWallet mismatchAdapter initialSession).2 ∧
     Event.req (AdapterReq.switchChain sepoliaChainIdHex) ∈
       (connectWallet mismatchAdapter initialSession).2) :=
  ⟨rfl, rfl, rfl, rfl, by decide, rfl,
   c3_connect_wrong_network mismatchAdapter initialSession "0xAA" [] SignerHandle.mk 1
     rfl rfl rfl rfl (by decide) rfl⟩

/-- Claim C5: a `handleChainChanged` event whose payload does not parse to
`SEPOLIA_CHAIN_ID`, received while Connected, emits the switch warning and
resets the session to the fully cleared Disconnected state (`account`,
`chainId` and both handles cleared). -/
theorem c5_chain_changed_mismatch (s : Session) (raw : String)
    (hne : parseIntHex raw ≠ some SEPOLIA_CHAIN_ID)
    ( _hc : s.isConnected = true) :
    (handleChainChanged s raw).1 = initialSession ∧
    statusOf (handleChainChanged s raw).1 = Status.Disconnected ∧
    Notif.error "Please switch to Sepolia Testnet." ∈ notifs (handleChainChanged s raw).2 := by
  unfold handleChainChanged
  rcases hp : parseIntHex raw with _ | n
  · exact ⟨rfl, rfl, by simp [notifs, disconnectWallet]⟩
  · have hn : n ≠ SEPOLIA_CHAIN_ID := by
      intro h
      exact hne (hp.trans (by rw [h]))
    simp only [if_pos hn]
    exact ⟨rfl, rfl, by simp [notifs, disconnectWallet]⟩

/-- A fully populated Connected session, used as concrete pre-state in
witnesses. -/
def connectedSession : Session :=
  { provider := some ProviderHandle.mk, signer := some SignerHandle.mk,
    account := some "0xAA", chainId := some SEPOLIA_CHAIN_ID,
    isConnected := true }

/-- Witness for C5: a chain-changed event to mainnet (`0x1`) while Connected. -/
theorem c5_chain_changed_mismatch_witness :
    parseIntHex "0x1" ≠ some SEPOLIA_CHAIN_ID ∧
    connectedSession.isConnected = true ∧
    ((handleChainChanged connectedSession "0x1").1 = initialSession ∧
     statusOf (handleChainChanged connectedSession "0x1").1 = Status.Disconnected ∧
     Notif.error "Please switch to Sepolia Testnet." ∈
       notifs (handleChainChanged connectedSession "0x1").2) :=
  ⟨by decide, rfl, c5_chain_changed_mismatch connectedSession "0x1" (by decide) rfl⟩

/-- Claim C6: when the switch request fails with code 4902, the add-network
request carrying the full Sepolia descriptor is issued before any user-visible
failure, and a failure notification appears only when the add request also
fails; a switch failure with any other code produces exactly the generic
switch-failure notification and no add-network request. -/
theorem c6_switch_fallback (a : Adapter) (s : Session) (e : SwitchErr)
    (hsw : a.switchChain = Except.error e) :
    (e.code = 4902 →
      ((∃ u, a.addChain = Except.ok u) ∧
        (switchToSepolia a s).2 =
          [Event.req (AdapterReq.switchChain sepoliaChainIdHex),
           Event.req (AdapterReq.addChain sepoliaDescriptor)]) ∨
      ((∃ u, a.addChain = Except.error u) ∧
        (switchToSepolia a s).2 =
          [Event.req (AdapterReq.switchChain sepoliaChainIdHex),
           Event.req (AdapterReq.addChain sepoliaDescriptor),
           Event.notif (Notif.error "Failed to add Sepolia network")])) ∧
    (e.code ≠ 4902 →
      (switchToSepolia a s).2 =
        [Event.req (AdapterReq.switchChain sepoliaChainIdHex),
         Event.notif (Notif.error "Failed to switch to Sepolia network")]) := by
  unfold switchToSepolia
  rw [hsw]
  constructor
  · intro h4902
    simp only [if_pos h4902]
    rcases hadd : a.addChain with u | u
    · exact Or.inr ⟨⟨u, rfl⟩, rfl⟩
    · exact Or.inl ⟨⟨u, rfl⟩, rfl⟩
  · intro hother
    simp only [if_neg hother]

/-- Adapter whose switch request fails with the unrecognized-chain code 4902
and whose add request succeeds, for the C6 witness. -/
def unrecognizedAdapter : Adapter :=
  { ethereumPresent := true
  , requestAccounts := Except.ok ["0xAA"]
  , getSigner := Except.ok SignerHandle.mk
  , getNetwork := Except.ok 1
  , switchChain := Except.error { code := 4902 }
  , addChain := Except.ok ()
  , ethAccounts := Except.ok ["0xAA"] }

/-- Witness for C6 at a concrete 4902 switch failure. -/
theorem c6_switch_fallback_witness :
    unrecognizedAdapter.switchChain = Except.error { code := 4902 } ∧
    (((4902 : Int) = 4902 →
      ((∃ u, unrecognizedAdapter.addChain = Except.ok u) ∧
        (switchToSepolia unrecognizedAdapter initialSession).2 =
          [Event.req (AdapterReq.switchChain sepoliaChainIdHex),
           Event.req (AdapterReq.addChain sepoliaDescriptor)]) ∨
      ((∃ u, unrecognizedAdapter.addChain = Except.error u) ∧
        (switchToSepolia unrecognizedAdapter initialSession).2 =
          [Event.req (AdapterReq.switchChain sepoliaChainIdHex),
           Event.req (AdapterReq.addChain sepoliaDescriptor),
           Event.notif (Notif.error "Failed to add Sepolia network")])) ∧
     ((4902 : Int) ≠ 4902 →
      (switchToSepolia unrecognizedAdapter initialSession).2 =
        [Event.req (AdapterReq.switchChain sepoliaChainIdHex),
         Event.notif (Notif.error "Failed to switch to Sepolia network")])) :=
  ⟨rfl, c6_switch_fallback unrecognizedAdapter initialSession { code := 4902 } rfl⟩

/-! ### The reachable-state invariant (C1) -/

/-- Strengthened inductive invariant: the handles are populated exactly when
`isConnected` holds, and a connected state also carries an account and the
required chain id. -/
def StrongInv (s : Session) : Prop :=
  (s.isConnected = true ↔ s.provider.isSome = true) ∧
  (s.isConnected = true ↔ s.signer.isSome = true) ∧
  (s.isConnected = true → s.account.isSome = true ∧ s.chainId = some SEPOLIA_CHAIN_ID)

/-- The initial state satisfies the invariant. -/
theorem strongInv_initial : StrongInv initialSession := by
  unfold StrongInv initialSession
  simp

/-- `disconnectWallet` re-establishes the invariant from any state. -/
theorem strongInv_disconnect (s : Session) : StrongInv (disconnectWallet s).1 := by
  unfold StrongInv disconnectWallet
  simp

/-- `connectWallet` either leaves the state unchanged or produces the fully
populated Connected state. -/
theorem connectWallet_fst (a : Adapter) (s : Session) :
    (connectWallet a s).1 = s ∨
    ∃ sig acc, (connectWallet a s).1 =
      { provider := some ProviderHandle.mk, signer := some sig,
        account := some acc, chainId := some SEPOLIA_CHAIN_ID,
        isConnected := true } := by
  unfold connectWallet
  split
  · split
    · exact Or.inl rfl
    · split
      · exact Or.inl rfl
      · split
        · exact Or.inl rfl
        · split
          · exact Or.inl rfl
          · split
            · exact Or.inl (switchToSepolia_fst a s)
            · rename_i hne
              exact Or.inr ⟨_, _, by rw [not_not.mp hne]⟩
  · exact Or.inl rfl

/-- `connectWallet` preserves the invariant. -/
theorem strongInv_connect (a : Adapter) (s : Session) (h : StrongInv s) :
    StrongInv (connectWallet a s).1 := by
  rcases connectWallet_fst a s with hcw | ⟨sig, acc, hcw⟩
  · rw [hcw]; exact h
  · rw [hcw]; unfold StrongInv; simp

/-- `handleAccountsChanged` preserves the invariant. -/
theorem strongInv_accountsChanged (s : Session) (l : List String) (h : StrongInv s) :
    StrongInv (handleAccountsChanged s l).1 := by
  rcases l with _ | ⟨a0, rest⟩
  · exact strongInv_disconnect s
  · unfold StrongInv at h ⊢
    obtain ⟨h1, h2, h3⟩ := h
    exact ⟨h1, h2, fun hc => ⟨by simp [handleAccountsChanged], (h3 hc).2⟩⟩

/-- `handleChainChanged` either resets the session to the cleared state or
merely records the required chain id. -/
theorem handleChainChanged_fst (s : Session) (raw : String) :
    (handleChainChanged s raw).1 = initialSession ∨
    (handleChainChanged s raw).1 = { s with chainId := some SEPOLIA_CHAIN_ID } := by
  unfold handleChainChanged
  split
  · dsimp only
    split
    · exact Or.inl rfl
    · rename_i hne
      exact Or.inr (by rw [not_not.mp hne])
  · exact Or.inl rfl

/-- `handleChainChanged` preserves the invariant. -/
theorem strongInv_chainChanged (s : Session) (raw : String) (h : StrongInv s) :
    StrongInv (handleChainChanged s raw).1 := by
  rcases handleChainChanged_fst s raw with hh | hh <;> rw [hh]
  · exact strongInv_initial
  · unfold StrongInv at h ⊢
    obtain ⟨h1, h2, h3⟩ := h
    exact ⟨h1, h2, fun hc => ⟨(h3 hc).1, rfl⟩⟩

/-- Every single operation preserves the invariant. -/
theorem strongInv_applyOp (s : Session) (op : Op) (h : StrongInv s) :
    StrongInv (applyOp s op).1 := by
  rcases op with a | _ | l | raw
  · exact strongInv_connect a s h
  · exact strongInv_disconnect s
  · exact strongInv_accountsChanged s l h
  · exact strongInv_chainChanged s raw h

/-- Every operation sequence preserves the invariant. -/
theorem strongInv_runOps (ops : List Op) (s : Session) (h : StrongInv s) :
    StrongInv (runOps s ops) := by
  induction ops generalizing s with
  | nil => exact h
  | cons op rest ih => exact ih (applyOp s op).1 (strongInv_applyOp s op h)

/-- Claim C1: in every session state reachable from the initial Disconnected
state by any sequence of connect, disconnect, accounts-changed and
chain-changed operations with any adapter responses, the status is Connected
if and only if `account`, `providerHandle` and `signerHandle` are all present
and `chainId = SEPOLIA_CHAIN_ID`. -/
theorem c1_reachable_invariant (s : Session) (h : Reachable s) :
    statusOf s = Status.Connected ↔
      (s.account.isSome = true ∧ s.chainId = some SEPOLIA_CHAIN_ID ∧
       s.provider.isSome = true ∧ s.signer.isSome = true) := by
  obtain ⟨ops, hops⟩ := h
  have hinv : StrongInv s := by
    rw [← hops]
    exact strongInv_runOps ops initialSession strongInv_initial
  unfold StrongInv at hinv
  obtain ⟨h1, h2, h3⟩ := hinv
  rw [statusOf_eq_connected]
  constructor
  · intro hc
    exact ⟨(h3 hc).1, (h3 hc).2, h1.mp hc, h2.mp hc⟩
  · rintro ⟨-, -, hp, -⟩
    exact h1.mpr hp

/-- Witness for C1 at the reachable initial state. -/
theorem c1_reachable_invariant_witness :
    Reachable initialSession ∧
    (statusOf initialSession = Status.Connected ↔
      (initialSession.account.isSome = true ∧
       initialSession.chainId = some SEPOLIA_CHAIN_ID ∧
       initialSession.provider.isSome = true ∧
       initialSession.signer.isSome = true)) :=
  ⟨⟨[], rfl⟩, c1_reachable_invariant initialSession ⟨[], rfl⟩⟩

/-! ### C4: re-entrancy of `connectWallet` -/

/-- Claim C4 (counterexample): the source has no re-entrancy guard.  A connect
attempt in flight writes no state cell before it completes, so the session
observed while a connect is in flight is exactly the caller's pre-state — from
startup, `initialSession`, whose status is Disconnected, never Connecting (the
source state cannot represent Connecting).  A second `connectWallet` call
arriving then performs the adapter account request, emits a notification and
changes the session state, so it is not a no-op. -/
theorem c4_counterexample :
    statusOf initialSession = Status.Disconnected ∧
    Event.req AdapterReq.requestAccounts ∈ (connectWallet okAdapter initialSession).2 ∧
    notifs (connectWallet okAdapter initialSession).2 ≠ [] ∧
    (connectWallet okAdapter initialSession).1 ≠ initialSession := by
  refine ⟨rfl, ?_, ?_, ?_⟩ <;> decide

/-- Claim C4 (amended): the session state never holds a Connecting status, and
`connectWallet` never inspects the session state before proceeding: whenever
the adapter capability is present, any call — in particular one made while
another connect attempt is in flight — issues the account request to the
adapter and produces a non-empty event trace, regardless of the session
state. -/
theorem c4_no_reentrancy_guard (a : Adapter) (s : Session)
    (hp : a.ethereumPresent = true) :
    statusOf s ≠ Status.Connecting ∧
    Event.req AdapterReq.requestAccounts ∈ (connectWallet a s).2 ∧
    (connectWallet a s).2 ≠ [] := by
  refine ⟨statusOf_ne_connecting s, ?_, ?_⟩ <;>
    · unfold connectWallet
      rw [hp]
      simp only [if_pos]
      split
      · simp
      · split
        · simp
        · split
          · simp
          · split
            · simp
            · split <;> simp

/-- Witness for the amended C4 at a concrete adapter and state. -/
theorem c4_no_reentrancy_guard_witness :
    okAdapter.ethereumPresent = true ∧
    (statusOf initialSession ≠ Status.Connecting ∧
     Event.req AdapterReq.requestAccounts ∈ (connectWallet okAdapter initialSession).2 ∧
     (connectWallet okAdapter initialSession).2 ≠ []) :=
  ⟨rfl, c4_no_reentrancy_guard okAdapter initialSession rfl⟩

/-! ### C7: notifications on the auto-connect path -/

/-- Claim C7 (counterexample): auto-connect is not silent on failure.  With an
adapter that reports an authorized account but a network id of 1 (mainnet),
the auto-connect path runs `connectWallet`, which emits the user-facing error
notification asking to switch to Sepolia. -/
theorem c7_counterexample :
    Notif.error "Please switch to Sepolia Testnet." ∈
      notifs (autoConnect mismatchAdapter initialSession).2 := by
  decide

/-- Claim C7 (amended): only a throw from the `eth_accounts` query itself is
swallowed — logged with no notification beyond the unconditional loading
toast.  When the query returns a non-empty account list, auto-connect runs
`connectWallet`, whose user-facing error notifications (provider unavailable,
network mismatch, connect failure) are emitted exactly as in a manual
connect. -/
theorem c7_autoconnect_notifications (a : Adapter) (s : Session)
    (hp : a.ethereumPresent = true) :
    (∀ u, a.ethAccounts = Except.error u →
      autoConnect a s =
        (s, [Event.notif (Notif.loading "Attempting auto-connect..."),
             Event.req AdapterReq.ethAccounts])) ∧
    (∀ accounts, a.ethAccounts = Except.ok accounts → accounts ≠ [] →
      (autoConnect a s).1 = (connectWallet a s).1 ∧
      (autoConnect a s).2 =
        Event.notif (Notif.loading "Attempting auto-connect...") ::
          Event.req AdapterReq.ethAccounts :: (connectWallet a s).2) := by
  constructor
  · intro u hu
    unfold autoConnect
    rw [hp, hu]
    rfl
  · intro accounts hacc hne
    unfold autoConnect
    rw [hp, hacc]
    simp only [if_pos, List.isEmpty_eq_true]
    rw [if_neg hne]
    exact ⟨rfl, rfl⟩

/-- Witness for the amended C7 at a concrete adapter. -/
theorem c7_autoconnect_notifications_witness :
    mismatchAdapter.ethereumPresent = true ∧
    mismatchAdapter.ethAccounts = Except.ok ["0xAA"] ∧
    ["0xAA"] ≠ ([] : List String) ∧
    ((autoConnect mismatchAdapter initialSession).1 =
       (connectWallet mismatchAdapter initialSession).1 ∧
     (autoConnect mismatchAdapter initialSession).2 =
       Event.notif (Notif.loading "Attempting auto-connect...") ::
         Event.req AdapterReq.ethAccounts ::
           (connectWallet mismatchAdapter initialSession).2) :=
  ⟨rfl, rfl, by decide,
   (c7_autoconnect_notifications mismatchAdapter initialSession rfl).2
     ["0xAA"] rfl (by decide)⟩

end Web3
